import Mathlib

/-!
Verification of the student-management CRUD service
(`controllers/student_controller.go`, `models/student.go`).

The Go handlers are embedded shallowly:
* `Student` mirrors `models.Student`; `gorm.DeletedAt` becomes `Option Nat`
  (`none` = live, `some t` = soft-deleted at logical time `t`).
* The database handle becomes an explicit `DB` state (row list, SQLite
  autoincrement counter, logical clock); each handler is a pure function
  from `DB` (plus request data) to a `Response` and, for writers, a new `DB`.
* Gin's `ShouldBindJSON` becomes `Body` (decoded struct or `malformed`)
  plus the predicate `bindingOK` derived from the struct's binding tags.
* The GORM/SQLite calls (`Create`, `First`, `Find`, `Updates`, `Delete`,
  `Where ... LIKE`) are embedded with their documented semantics for this
  schema: soft-delete scope on reads, a unique index on `email` spanning
  all rows (soft-deleted included), integer primary key autoincrement,
  zero-valued timestamps filled in at create, `Updates` assigning only
  non-zero non-key struct fields, and SQLite's ASCII-case-insensitive LIKE.
-/

namespace StudentMS

/-- Mirror of `models.Student`.  Go `uint` ids are `Nat`, Go `int` age is `Int`,
`time.Time` timestamps are logical `Nat` instants (`0` = Go's zero time),
`gorm.DeletedAt` is `Option Nat`.  `DeletedAt` carries `json:"-"` in the
source, so it is never populated from a request body. -/
structure Student where
  id : Nat
  name : String
  age : Int
  gender : String
  email : String
  phone : String
  major : String
  grade : String
  createdAt : Nat
  updatedAt : Nat
  deletedAt : Option Nat
deriving DecidableEq, Repr

/-- The database state behind `config.GetDB()`: the `students` table in
insertion order, the SQLite AUTOINCREMENT counter (strictly above every id
ever assigned), and a logical clock read as `now` by GORM's timestamp and
soft-delete hooks. -/
structure DB where
  rows : List Student
  nextId : Nat
  now : Nat
deriving DecidableEq, Repr

/-- A JSON request body as seen after `c.ShouldBindJSON(&student)` decodes
it: either a decode failure or a `Student` struct holding the supplied
fields and Go zero values for absent ones. -/
inductive Body where
  | malformed : Body
  | fields : Student → Body
deriving DecidableEq, Repr

/-- The JSON responses the controller writes, keyed by status and payload:
`okList` = 200 `{data, count}`, `okOne` = 200 `{data}`, `updatedR` and
`deletedMsg` = 200 with message, `createdR` = 201, `badRequest` = 400,
`notFound` = 404, `serverError` = 500. -/
inductive Response where
  | okList : List Student → Nat → Response
  | okOne : Student → Response
  | createdR : Student → Response
  | updatedR : Student → Response
  | deletedMsg : Response
  | badRequest : Response
  | notFound : Response
  | serverError : Response
deriving DecidableEq, Repr

/-- Validator tag `required` on a string field: fails exactly on the zero
value `""`. -/
def requiredStr (s : String) : Bool := !(s == "")

/-- Tags `required,min=1,max=150` on the `int` field `Age`: `required`
fails on the zero value `0`, `min`/`max` are inclusive bounds. -/
def ageOK (a : Int) : Bool := !(a == 0) && decide (1 ≤ a) && decide (a ≤ 150)

/-- Tags `required,oneof=男 女` on `Gender`. -/
def genderOK (g : String) : Bool := g == "男" || g == "女"

/-- Splits a character list at every occurrence of `sep` (the pieces keep
their order; `n` separators yield `n + 1` pieces). -/
def splitOnChar (sep : Char) : List Char → List (List Char)
  | [] => [[]]
  | c :: cs =>
    if c == sep then [] :: splitOnChar sep cs
    else
      match splitOnChar sep cs with
      | [] => [[c]]
      | h :: t => (c :: h) :: t

/-- Models the third-party validator's `email` tag: a single `@` with a
non-empty local part and a non-empty domain part.  (The library uses an
HTML5-style regex; the claims only depend on well-formed addresses
passing and on the check being a pure function of the string.) -/
def validEmail (s : String) : Bool :=
  match splitOnChar '@' s.data with
  | [lp, dp] => !lp.isEmpty && !dp.isEmpty
  | _ => false

/-- The binding validation gin runs inside `ShouldBindJSON`, read off the
`binding:"..."` tags of `models.Student` in field order.  `ID`,
`CreatedAt`, `UpdatedAt` carry no binding tag and are not validated
(though they are decoded from JSON). -/
def bindingOK (s : Student) : Bool :=
  requiredStr s.name && ageOK s.age && genderOK s.gender &&
  requiredStr s.email && validEmail s.email &&
  requiredStr s.phone && requiredStr s.major && requiredStr s.grade

/-- Model of `strconv.ParseUint(s, 10, 32)`: base-10 digits only, non-empty, value
below `2 ^ 32`; any other input is an error (`none`). -/
def parseUint32 (s : String) : Option Nat :=
  if s.data ≠ [] ∧ s.data.all Char.isDigit then
    let v := s.data.foldl (fun acc c => acc * 10 + (c.toNat - 48)) 0
    if v < 2 ^ 32 then some v else none
  else none

/-- Rows visible to reads: GORM's soft-delete scope / the explicit
`WHERE deleted_at IS NULL`. -/
def liveRows (db : DB) : List Student :=
  db.rows.filter (fun r => r.deletedAt.isNone)

/-- Model of `db.First(&student, uint(id))`: the row with the given primary key,
excluding soft-deleted rows; `none` = `gorm.ErrRecordNotFound`. -/
def firstLive (db : DB) (id : Nat) : Option Student :=
  db.rows.find? (fun r => r.deletedAt.isNone && r.id == id)

/-- The primary key `db.Create` assigns: a non-zero client-supplied `ID`
is inserted as-is; a zero `ID` takes the autoincrement value. -/
def newIdOf (db : DB) (s : Student) : Nat :=
  if s.id == 0 then db.nextId else s.id

/-- The row as stored by `db.Create`: GORM fills `CreatedAt`/`UpdatedAt`
with `now` only when they hold the zero time, and keeps non-zero
client-supplied values. -/
def storedOf (db : DB) (s : Student) : Student :=
  { s with
    id := newIdOf db s,
    createdAt := if s.createdAt == 0 then db.now else s.createdAt,
    updatedAt := if s.updatedAt == 0 then db.now else s.updatedAt }

/-- The SQLite insert violates a constraint iff the chosen primary key or
the `email` value (unique index, spanning soft-deleted rows too) collides
with any existing row. -/
def insertConflict (db : DB) (s : Student) : Bool :=
  db.rows.any (fun r => r.id == newIdOf db s || r.email == s.email)

/-- Model of `db.Create(&student)`: `none` is a constraint-violation error, which
the controller maps to HTTP 500. -/
def dbCreate (db : DB) (s : Student) : Option (DB × Student) :=
  if insertConflict db s then none
  else
    some ({ db with
              rows := db.rows ++ [storedOf db s],
              nextId := max db.nextId (newIdOf db s + 1) },
          storedOf db s)

/-- Model of GORM `Updates` with a struct argument applied to one row: assigns only
the non-zero fields of `u`, never reassigns the primary key, and
refreshes `UpdatedAt` to `now` (autoUpdateTime). -/
def applyUpdates (target u : Student) (now : Nat) : Student :=
  { target with
    name := if u.name == "" then target.name else u.name,
    age := if u.age == 0 then target.age else u.age,
    gender := if u.gender == "" then target.gender else u.gender,
    email := if u.email == "" then target.email else u.email,
    phone := if u.phone == "" then target.phone else u.phone,
    major := if u.major == "" then target.major else u.major,
    grade := if u.grade == "" then target.grade else u.grade,
    createdAt := if u.createdAt == 0 then target.createdAt else u.createdAt,
    updatedAt := now }

/-- Model of `db.Model(&student).Updates(updateData)`: `UPDATE students SET ...
WHERE id = ? AND deleted_at IS NULL`. -/
def dbUpdate (db : DB) (id : Nat) (u : Student) : DB :=
  { db with
    rows := db.rows.map (fun r =>
      if r.id == id && r.deletedAt.isNone then applyUpdates r u db.now else r) }

/-- Model of `db.Delete(&student)` on a soft-deletable model: `UPDATE students SET
deleted_at = now WHERE id = ? AND deleted_at IS NULL`. -/
def dbSoftDelete (db : DB) (id : Nat) : DB :=
  { db with
    rows := db.rows.map (fun r =>
      if r.id == id && r.deletedAt.isNone then { r with deletedAt := some db.now } else r) }

/-- SQLite's ASCII-only case folding, used by `LIKE`. -/
def lowerAscii (c : Char) : Char :=
  if 'A' ≤ c ∧ c ≤ 'Z' then Char.ofNat (c.toNat + 32) else c

/-- SQLite `LIKE` matching: `%` matches any run, `_` any one character,
other characters compare case-insensitively over ASCII. -/
def likeMatch : List Char → List Char → Bool
  | [], cs => cs.isEmpty
  | p :: ps, cs =>
    if p == '%' then
      likeMatch ps cs ||
        (match cs with
         | [] => false
         | _ :: cs2 => likeMatch (p :: ps) cs2)
    else
      match cs with
      | [] => false
      | c :: cs2 =>
        if p == '_' then likeMatch ps cs2
        else (lowerAscii p == lowerAscii c) && likeMatch ps cs2
termination_by pat cs => (pat.length, cs.length)

/-- Matching of `column LIKE pattern` on strings. -/
def likeS (pat hay : String) : Bool := likeMatch pat.data hay.data

/-- The WHERE clause `SearchStudents` builds: the soft-delete guard plus
one conditional clause per non-empty query parameter — `name LIKE
%name%`, `major LIKE %major%`, `grade = grade` (SQLite `=` on text is
case-sensitive). -/
def searchPred (name major grade : String) (r : Student) : Bool :=
  r.deletedAt.isNone
  && (name == "" || likeS ("%" ++ name ++ "%") r.name)
  && (major == "" || likeS ("%" ++ major ++ "%") r.major)
  && (grade == "" || r.grade == grade)

/-- The row set `query.Find(&students)` returns in `SearchStudents`. -/
def searchRows (db : DB) (name major grade : String) : List Student :=
  db.rows.filter (searchPred name major grade)

/-- Handler `GetAllStudents`: 200 with all live rows and their count. -/
def GetAllStudents (db : DB) : Response :=
  Response.okList (liveRows db) (liveRows db).length

/-- Handler `GetStudentByID`: 400 on unparseable id, 404 when `First`
finds no live row, else 200 with the row.  Reads do not change the DB. -/
def GetStudentByID (db : DB) (idStr : String) : Response :=
  match parseUint32 idStr with
  | none => Response.badRequest
  | some id =>
    match firstLive db id with
    | none => Response.notFound
    | some s => Response.okOne s

/-- Handler `CreateStudent`: bind (+validate) the body, then `db.Create`;
any store error becomes HTTP 500.  `DeletedAt` is `json:"-"` and is never
taken from the body. -/
def CreateStudent (db : DB) (body : Body) : Response × DB :=
  match body with
  | Body.malformed => (Response.badRequest, db)
  | Body.fields s0 =>
    let s := { s0 with deletedAt := none }
    if bindingOK s then
      match dbCreate db s with
      | some (db2, stored) => (Response.createdR stored, db2)
      | none => (Response.serverError, db)
    else (Response.badRequest, db)

/-- Handler `UpdateStudent`: parse id, `First` (404 before the body is
read), then bind the body with the same required-field validation as
create, then `Updates`. -/
def UpdateStudent (db : DB) (idStr : String) (body : Body) : Response × DB :=
  match parseUint32 idStr with
  | none => (Response.badRequest, db)
  | some id =>
    match firstLive db id with
    | none => (Response.notFound, db)
    | some target =>
      match body with
      | Body.malformed => (Response.badRequest, db)
      | Body.fields u0 =>
        let u := { u0 with deletedAt := none }
        if bindingOK u then
          (Response.updatedR (applyUpdates target u db.now), dbUpdate db id u)
        else (Response.badRequest, db)

/-- Handler `DeleteStudent`: parse id, `First` (404 when no live row),
then soft delete. -/
def DeleteStudent (db : DB) (idStr : String) : Response × DB :=
  match parseUint32 idStr with
  | none => (Response.badRequest, db)
  | some id =>
    match firstLive db id with
    | none => (Response.notFound, db)
    | some _ => (Response.deletedMsg, dbSoftDelete db id)

/-- Handler `SearchStudents`: 200 with the filtered rows and their count. -/
def SearchStudents (db : DB) (name major grade : String) : Response :=
  Response.okList (searchRows db name major grade) (searchRows db name major grade).length

/-- Spec-side notion for the search claim: the string holds character `c`
up to ASCII case. -/
def ciContainsChar (c : Char) (s : String) : Bool :=
  s.data.any (fun d => lowerAscii d == c)

/-- The binding checks other than the age bound, used to state the
age-boundary claim. -/
def restOK (s : Student) : Bool :=
  requiredStr s.name && genderOK s.gender &&
  requiredStr s.email && validEmail s.email &&
  requiredStr s.phone && requiredStr s.major && requiredStr s.grade

/-- The binding checks other than the one on `name`, used to state the
name-length claim. -/
def restNameOK (s : Student) : Bool :=
  ageOK s.age && genderOK s.gender &&
  requiredStr s.email && validEmail s.email &&
  requiredStr s.phone && requiredStr s.major && requiredStr s.grade

/-- The decoded form of the JSON body `{"age": a}`: every other field
holds its Go zero value. -/
def ageOnlyInput (a : Int) : Student :=
  { id := 0, name := "", age := a, gender := "", email := "", phone := "",
    major := "", grade := "", createdAt := 0, updatedAt := 0, deletedAt := none }

/-- A live stored row used as a concrete scenario. -/
def exLive : Student :=
  { id := 1, name := "张三", age := 20, gender := "男", email := "zs@example.com",
    phone := "13800000000", major := "CS", grade := "2023", createdAt := 5,
    updatedAt := 5, deletedAt := none }

/-- A store holding exactly the live row `exLive`. -/
def exDbLive : DB := { rows := [exLive], nextId := 2, now := 6 }

/-- The same row soft-deleted at time 5. -/
def exDeleted : Student := { exLive with deletedAt := some 5 }

/-- A store holding only the soft-deleted row `exDeleted`. -/
def exDbDeleted : DB := { rows := [exDeleted], nextId := 2, now := 6 }

/-- An otherwise-valid create input reusing `exLive`'s email. -/
def exInput : Student :=
  { id := 0, name := "李四", age := 22, gender := "女", email := "zs@example.com",
    phone := "13900000000", major := "EE", grade := "2024", createdAt := 0,
    updatedAt := 0, deletedAt := none }

/-- The empty store. -/
def exDb0 : DB := { rows := [], nextId := 1, now := 5 }

-- ### Helper lemmas

theorem bindingOK_mk (s : Student) (d : Option Nat) :
    bindingOK { s with deletedAt := d } = bindingOK s := rfl

theorem set_deletedAt_self (s : Student) (h : s.deletedAt = none) :
    ({ s with deletedAt := none } : Student) = s := by
  cases s
  simp only at h
  rw [h]

theorem create_email_conflict_500 (db : DB) (s : Student)
    (hb : bindingOK s = true) (r : Student) (hr : r ∈ db.rows)
    (he : r.email = s.email) :
    CreateStudent db (Body.fields s) = (Response.serverError, db) := by
  have hb2 : bindingOK { s with deletedAt := none } = true := hb
  have hc : insertConflict db { s with deletedAt := none } = true := by
    unfold insertConflict
    rw [List.any_eq_true]
    exact ⟨r, hr, by simp [he]⟩
  simp [CreateStudent, dbCreate, hb2, hc]

-- ### Claims

/-- Claim C1, counterexample: with one live record holding email
"zs@example.com", an otherwise-valid create request reusing that email is
answered with the generic HTTP 500 storage failure, not with a 400
validation error on field "email" — no re-mapping happens at any
boundary. -/
theorem createDupLiveEmail_cx :
    CreateStudent exDbLive (Body.fields exInput) = (Response.serverError, exDbLive) ∧
    Response.serverError ≠ Response.badRequest := by
  constructor
  · decide
  · decide

/-- Claim C1 (amended): a create request whose email equals the email of an
existing live record fails, but with the generic HTTP 500 storage error:
the store-level duplicate-key failure is passed through unmapped, never
turned into a field-level 400. -/
theorem createDupLiveEmail_500 (db : DB) (s : Student) (r : Student)
    (hb : bindingOK s = true) (hr : r ∈ db.rows) (hlive : r.deletedAt = none)
    (he : r.email = s.email) :
    CreateStudent db (Body.fields s) = (Response.serverError, db) :=
  create_email_conflict_500 db s hb r hr he

/-- Claim C1 witness at the concrete duplicate-email scenario. -/
theorem createDupLiveEmail_500_witness :
    CreateStudent exDbLive (Body.fields exInput) = (Response.serverError, exDbLive) :=
  createDupLiveEmail_500 exDbLive exInput exLive (by decide) (by decide)
    (by decide) (by decide)

/-- Claim C2, counterexample: with only a soft-deleted record holding email
"zs@example.com", a valid create request with that email does not succeed;
the unique index on email spans soft-deleted rows, so the insert fails
and the controller answers HTTP 500. -/
theorem createDupDeletedEmail_cx :
    CreateStudent exDbDeleted (Body.fields exInput) = (Response.serverError, exDbDeleted) := by
  decide

/-- Claim C2 (amended): email uniqueness is not scoped to live records: a
create whose email equals any existing record's email — in particular a
soft-deleted one — fails with the generic HTTP 500 storage error. -/
theorem createDupDeletedEmail_500 (db : DB) (s : Student) (r : Student)
    (hb : bindingOK s = true) (hr : r ∈ db.rows) (hdel : r.deletedAt ≠ none)
    (he : r.email = s.email) :
    CreateStudent db (Body.fields s) = (Response.serverError, db) :=
  create_email_conflict_500 db s hb r hr he

/-- Claim C2 witness at the concrete soft-deleted-email scenario. -/
theorem createDupDeletedEmail_500_witness :
    CreateStudent exDbDeleted (Body.fields exInput) = (Response.serverError, exDbDeleted) :=
  createDupDeletedEmail_500 exDbDeleted exInput exDeleted (by decide) (by decide)
    (by decide) (by decide)

/-- Claim C10: update looks the record up before reading the body, so a
well-formed id that names no live record is answered 404 — never 400 —
for every body, malformed ones included, and the store is unchanged. -/
theorem updateMissingId_404 (db : DB) (idStr : String) (id : Nat) (body : Body)
    (hp : parseUint32 idStr = some id) (hf : firstLive db id = none) :
    UpdateStudent db idStr body = (Response.notFound, db) := by
  simp [UpdateStudent, hp, hf]

/-- Claim C10 witness: updating id 7 (absent) with a malformed body on the
one-row store yields 404 and leaves the store as it was. -/
theorem updateMissingId_404_witness :
    UpdateStudent exDbLive "7" Body.malformed = (Response.notFound, exDbLive) :=
  updateMissingId_404 exDbLive "7" 7 Body.malformed (by decide) (by decide)

/-- Claim C3, counterexample: on the one-row store, the partial update
body `{"age": 21}` against the live record id 1 is rejected with HTTP 400
at binding (every business field of the bound struct is `required`), so
the update does not succeed and nothing changes. -/
theorem updateAgeOnly_cx :
    UpdateStudent exDbLive "1" (Body.fields (ageOnlyInput 21)) =
      (Response.badRequest, exDbLive) := by
  decide

/-- Claim C3 (amended): for every existing live record, an update whose
body supplies only `age` fails binding with HTTP 400 and leaves the store
exactly as it was — partial update bodies are not accepted, because the
update handler binds the body with the same all-fields-required
validation as create. -/
theorem updateAgeOnly_400 (db : DB) (idStr : String) (id : Nat) (t : Student)
    (a : Int) (hp : parseUint32 idStr = some id) (hf : firstLive db id = some t) :
    UpdateStudent db idStr (Body.fields (ageOnlyInput a)) =
      (Response.badRequest, db) := by
  have hb : bindingOK { ageOnlyInput a with deletedAt := none } = false := by
    simp [bindingOK, ageOnlyInput, requiredStr]
  simp [UpdateStudent, hp, hf, hb]

/-- Claim C3 witness at the concrete one-row store. -/
theorem updateAgeOnly_400_witness :
    UpdateStudent exDbLive "1" (Body.fields (ageOnlyInput 21)) =
      (Response.badRequest, exDbLive) :=
  updateAgeOnly_400 exDbLive "1" 1 exLive 21 (by decide) (by decide)

/-- Claim C6: the age bounds of the binding tags `min=1,max=150` are
inclusive: a create input with age 0 or age 151 is rejected with HTTP 400
and the store is untouched, while age 1 and age 150 pass the age check
and, when the remaining fields pass theirs, the whole validation. -/
theorem ageBounds (db : DB) (s : Student) :
    ((s.age = 0 ∨ s.age = 151) →
      CreateStudent db (Body.fields s) = (Response.badRequest, db)) ∧
    ((s.age = 1 ∨ s.age = 150) →
      ageOK s.age = true ∧ (restOK s = true → bindingOK s = true)) := by
  constructor
  · intro h
    have hAge : ageOK s.age = false := by
      rcases h with h | h <;> rw [h] <;> decide
    have hb : bindingOK { s with deletedAt := none } = false := by
      simp [bindingOK, hAge]
    simp [CreateStudent, hb]
  · intro h
    have hAge : ageOK s.age = true := by
      rcases h with h | h <;> rw [h] <;> decide
    refine ⟨hAge, fun hr => ?_⟩
    have : bindingOK s = (restOK s && ageOK s.age) := by
      simp [bindingOK, restOK, Bool.and_assoc, Bool.and_comm, Bool.and_left_comm]
    rw [this, hr, hAge]
    rfl

/-- Claim C6 witness: age 0 is rejected on the empty store, and age 150
passes the age check for the valid base input. -/
theorem ageBounds_witness :
    CreateStudent exDb0 (Body.fields { exInput with age := 0 }) =
        (Response.badRequest, exDb0) ∧
      ageOK ({ exInput with age := 150 } : Student).age = true := by
  constructor
  · exact (ageBounds exDb0 { exInput with age := 0 }).1 (Or.inl rfl)
  · exact ((ageBounds exDb0 { exInput with age := 150 }).2 (Or.inr rfl)).1

-- ### Soft-delete lemmas

theorem softDelete_kills (db : DB) (id : Nat) :
    ∀ r ∈ (dbSoftDelete db id).rows, r.id = id → r.deletedAt ≠ none := by
  intro r hr hid
  simp only [dbSoftDelete, List.mem_map] at hr
  obtain ⟨r0, hr0, hEq⟩ := hr
  by_cases h : (r0.id == id && r0.deletedAt.isNone) = true
  · rw [if_pos h] at hEq
    rw [← hEq]
    simp
  · rw [if_neg h] at hEq
    subst hEq
    intro hnone
    apply h
    simp [hid, hnone]

theorem softDelete_firstLive (db : DB) (id : Nat) :
    firstLive (dbSoftDelete db id) id = none := by
  rw [firstLive, List.find?_eq_none]
  intro r hr
  simp only [Bool.and_eq_true, Option.isNone_iff_eq_none, beq_iff_eq]
  rintro ⟨h1, h2⟩
  exact softDelete_kills db id r hr h2 h1

/-- Claim C7: soft delete is not idempotent at the interface: when a live
record with the requested id exists, the first delete answers 200 and
marks every row with that id deleted, and repeating the same delete is
answered 404 with the store unchanged, because deleted rows are invisible
to the lookup. -/
theorem deleteTwice (db : DB) (idStr : String) (id : Nat) (t : Student)
    (hp : parseUint32 idStr = some id) (hf : firstLive db id = some t) :
    DeleteStudent db idStr = (Response.deletedMsg, dbSoftDelete db id) ∧
    (∀ r ∈ (dbSoftDelete db id).rows, r.id = id → r.deletedAt ≠ none) ∧
    DeleteStudent (dbSoftDelete db id) idStr =
      (Response.notFound, dbSoftDelete db id) := by
  refine ⟨by simp [DeleteStudent, hp, hf], softDelete_kills db id, ?_⟩
  simp [DeleteStudent, hp, softDelete_firstLive]

/-- Claim C7 witness: deleting id 1 twice on the one-row store. -/
theorem deleteTwice_witness :
    DeleteStudent (dbSoftDelete exDbLive 1) "1" =
      (Response.notFound, dbSoftDelete exDbLive 1) :=
  (deleteTwice exDbLive "1" 1 exLive (by decide) (by decide)).2.2

theorem mem_liveRows_isNone (db : DB) (r : Student) (hr : r ∈ liveRows db) :
    r.deletedAt = none := by
  rw [liveRows, List.mem_filter] at hr
  exact Option.isNone_iff_eq_none.mp hr.2

theorem mem_liveRows_mem (db : DB) (r : Student) (hr : r ∈ liveRows db) :
    r ∈ db.rows := by
  rw [liveRows, List.mem_filter] at hr
  exact hr.1

theorem mem_searchRows_isNone (db : DB) (nm mj gr : String) (r : Student)
    (hr : r ∈ searchRows db nm mj gr) : r.deletedAt = none := by
  rw [searchRows, List.mem_filter] at hr
  have := hr.2
  simp only [searchPred, Bool.and_eq_true] at this
  exact Option.isNone_iff_eq_none.mp this.1.1.1

theorem mem_searchRows_mem (db : DB) (nm mj gr : String) (r : Student)
    (hr : r ∈ searchRows db nm mj gr) : r ∈ db.rows := by
  rw [searchRows, List.mem_filter] at hr
  exact hr.1

/-- Claim C4: once a delete has succeeded, a get of the same id answers
404, and the deleted id appears in no row of the list endpoint nor of any
search — every read excludes rows with a non-null deleted_at. -/
theorem deletedInvisible (db : DB) (idStr : String) (id : Nat) (db2 : DB)
    (hp : parseUint32 idStr = some id)
    (hd : DeleteStudent db idStr = (Response.deletedMsg, db2)) :
    GetStudentByID db2 idStr = Response.notFound ∧
    (∀ r ∈ liveRows db2, r.id ≠ id) ∧
    (∀ nm mj gr : String, ∀ r ∈ searchRows db2 nm mj gr, r.id ≠ id) := by
  simp only [DeleteStudent, hp] at hd
  rcases hFL : firstLive db id with _ | t
  · rw [hFL] at hd
    simp at hd
  · rw [hFL] at hd
    simp only [Prod.mk.injEq] at hd
    have hdb2 : db2 = dbSoftDelete db id := hd.2.symm
    subst hdb2
    refine ⟨?_, ?_, ?_⟩
    · simp only [GetStudentByID, hp, softDelete_firstLive]
    · intro r hr hid
      exact softDelete_kills db id r (mem_liveRows_mem _ r hr) hid
        (mem_liveRows_isNone _ r hr)
    · intro nm mj gr r hr hid
      exact softDelete_kills db id r (mem_searchRows_mem _ nm mj gr r hr) hid
        (mem_searchRows_isNone _ nm mj gr r hr)

/-- Claim C4 witness: after deleting id 1 from the one-row store, the get
answers 404. -/
theorem deletedInvisible_witness :
    GetStudentByID (dbSoftDelete exDbLive 1) "1" = Response.notFound :=
  (deletedInvisible exDbLive "1" 1 (dbSoftDelete exDbLive 1) (by decide)
    (by decide)).1

-- ### LIKE-matching lemmas

theorem char_beq_comm (x y : Char) : (x == y) = (y == x) := by
  by_cases h : x = y
  · subst h; rfl
  · rw [beq_eq_false_iff_ne.mpr h, beq_eq_false_iff_ne.mpr (Ne.symm h)]

theorem likeMatch_pct : ∀ cs : List Char, likeMatch ['%'] cs = true := by
  intro cs
  induction cs with
  | nil => simp [likeMatch]
  | cons c cs ih => simp [likeMatch, ih]

theorem likeMatch_pct_char_pct (c : Char) (hc1 : (c == '%') = false)
    (hc2 : (c == '_') = false) :
    ∀ cs : List Char,
      likeMatch ['%', c, '%'] cs = cs.any (fun d => lowerAscii d == lowerAscii c) := by
  intro cs
  induction cs with
  | nil => simp [likeMatch, hc1]
  | cons c2 cs ih =>
    simp [likeMatch, hc1, hc2, likeMatch_pct, ih]
    rw [char_beq_comm]

theorem searchPred_AB (r : Student) :
    searchPred "A" "B" "" r =
      ((ciContainsChar 'a' r.name && ciContainsChar 'b' r.major) &&
        r.deletedAt.isNone) := by
  have hA : likeS "%A%" r.name = ciContainsChar 'a' r.name := by
    have hd : ("%A%" : String).data = ['%', 'A', '%'] := by decide
    rw [likeS, hd, likeMatch_pct_char_pct 'A' (by decide) (by decide)]
    have hl : lowerAscii 'A' = 'a' := by decide
    rw [ciContainsChar, hl]
  have hB : likeS "%B%" r.major = ciContainsChar 'b' r.major := by
    have hd : ("%B%" : String).data = ['%', 'B', '%'] := by decide
    rw [likeS, hd, likeMatch_pct_char_pct 'B' (by decide) (by decide)]
    have hl : lowerAscii 'B' = 'b' := by decide
    rw [ciContainsChar, hl]
  have e1 : (("A" : String) == "") = false := by decide
  have e2 : (("B" : String) == "") = false := by decide
  have e3 : (("" : String) == "") = true := by decide
  simp [searchPred, e1, e2, e3, hA, hB, Bool.and_assoc, Bool.and_comm,
    Bool.and_left_comm]

/-- Claim C5: search AND-composes its filters over live rows: with name
filter "A" and major filter "B" it returns exactly the live records whose
name holds an 'a' or 'A' and whose major holds a 'b' or 'B' (SQLite LIKE
is ASCII-case-insensitive), and with every filter blank it returns the
same response as the list endpoint — blank filters impose no constraint. -/
theorem searchANDComposition (db : DB) :
    SearchStudents db "A" "B" "" =
      Response.okList
        ((liveRows db).filter
          (fun r => ciContainsChar 'a' r.name && ciContainsChar 'b' r.major))
        ((liveRows db).filter
          (fun r => ciContainsChar 'a' r.name && ciContainsChar 'b' r.major)).length ∧
    SearchStudents db "" "" "" = GetAllStudents db := by
  have hrows : searchRows db "A" "B" "" =
      (liveRows db).filter
        (fun r => ciContainsChar 'a' r.name && ciContainsChar 'b' r.major) := by
    rw [searchRows, liveRows, List.filter_filter]
    exact List.filter_congr (fun r _ => searchPred_AB r)
  have hrows2 : searchRows db "" "" "" = liveRows db := by
    rw [searchRows, liveRows]
    exact List.filter_congr (fun r _ => by simp [searchPred])
  constructor
  · rw [SearchStudents, hrows]
  · rw [SearchStudents, hrows2, GetAllStudents]

/-- A 101-code-point name on an otherwise valid create input. -/
def exInputLong : Student :=
  { exInput with name := String.mk (List.replicate 101 'a'),
                 email := "long@example.com" }

/-- Claim C8, counterexample: a create input whose name has 101 code
points passes validation and is stored on the empty store — the claimed
max-100-code-point rejection does not exist (only `required` is checked;
the gorm `size:100` column hint is not enforced by SQLite). -/
theorem createLongName_cx :
    100 < exInputLong.name.length ∧
    CreateStudent exDb0 (Body.fields exInputLong) =
      (Response.createdR (storedOf exDb0 exInputLong),
       { exDb0 with rows := [storedOf exDb0 exInputLong], nextId := 2 }) ∧
    (CreateStudent exDb0 (Body.fields exInputLong)).1 ≠ Response.badRequest := by
  refine ⟨by decide, by decide, by decide⟩

/-- Claim C8 (amended): only non-emptiness of the name is validated: an
empty name is rejected with HTTP 400 before the store is reached, but a
name longer than 100 code points passes validation, and the create
proceeds to the store (the response is never the 400 rejection). -/
theorem nameLengthNotChecked (db : DB) (s : Student) :
    (s.name = "" → CreateStudent db (Body.fields s) = (Response.badRequest, db)) ∧
    (100 < s.name.length → restNameOK s = true →
      bindingOK s = true ∧
      (CreateStudent db (Body.fields s)).1 ≠ Response.badRequest) := by
  constructor
  · intro h
    have hreq : requiredStr s.name = false := by rw [h]; decide
    have hb : bindingOK { s with deletedAt := none } = false := by
      simp [bindingOK, hreq]
    simp [CreateStudent, hb]
  · intro hlen hr
    have hne : s.name ≠ "" := by
      intro h
      rw [h] at hlen
      exact absurd hlen (by decide)
    have hreq : requiredStr s.name = true := by
      rw [requiredStr, beq_eq_false_iff_ne.mpr hne]
      rfl
    have hb : bindingOK s = true := by
      have heq : bindingOK s = (requiredStr s.name && restNameOK s) := by
        simp [bindingOK, restNameOK, Bool.and_assoc, Bool.and_comm,
          Bool.and_left_comm]
      rw [heq, hreq, hr]
      rfl
    refine ⟨hb, ?_⟩
    have hb2 : bindingOK { s with deletedAt := none } = true := hb
    simp only [CreateStudent, hb2, if_true]
    rcases h : dbCreate db { s with deletedAt := none } with _ | p
    · simp [h]
    · simp [h]

/-- Claim C8 witness: the 101-code-point input passes the whole binding
validation. -/
theorem nameLengthNotChecked_witness : bindingOK exInputLong = true :=
  ((nameLengthNotChecked exDb0 exInputLong).2 (by decide) (by decide)).1

/-- Claim C9, counterexample: two create requests on the empty store that
differ only in the `id` supplied in the body (0 versus 42) produce
different stored records: the client-supplied non-zero id 42 is used
as-is, so `id` is client-settable. -/
theorem clientIdHonored_cx :
    (CreateStudent exDb0 (Body.fields exInput)).1 =
      Response.createdR { exInput with id := 1, createdAt := 5, updatedAt := 5 } ∧
    (CreateStudent exDb0 (Body.fields { exInput with id := 42 })).1 =
      Response.createdR { exInput with id := 42, createdAt := 5, updatedAt := 5 } ∧
    ({ exInput with id := 1, createdAt := 5, updatedAt := 5 } : Student) ≠
      { exInput with id := 42, createdAt := 5, updatedAt := 5 } := by
  refine ⟨by decide, by decide, by decide⟩

/-- Claim C9 (amended): the system fields are client-settable on create:
the body's `id`, `created_at` and `updated_at` reach the store, a
non-zero supplied value is stored as given, and only a zero value is
replaced by the system assignment (autoincrement id, current time). -/
theorem systemFieldsClientSettable (db : DB) (s : Student)
    (hdel : s.deletedAt = none) (hb : bindingOK s = true)
    (hc : insertConflict db s = false) :
    CreateStudent db (Body.fields s) =
      (Response.createdR (storedOf db s),
       { db with rows := db.rows ++ [storedOf db s],
                 nextId := max db.nextId (newIdOf db s + 1) }) ∧
    (s.id ≠ 0 → (storedOf db s).id = s.id) ∧
    (s.id = 0 → (storedOf db s).id = db.nextId) ∧
    (s.createdAt ≠ 0 → (storedOf db s).createdAt = s.createdAt) ∧
    (s.createdAt = 0 → (storedOf db s).createdAt = db.now) ∧
    (s.updatedAt ≠ 0 → (storedOf db s).updatedAt = s.updatedAt) ∧
    (s.updatedAt = 0 → (storedOf db s).updatedAt = db.now) := by
  have hself : ({ s with deletedAt := none } : Student) = s :=
    set_deletedAt_self s hdel
  refine ⟨?_, ?_, ?_, ?_, ?_, ?_, ?_⟩
  · simp [CreateStudent, hself, hb, dbCreate, hc]
  · intro h
    have hbeq : (s.id == 0) = false := beq_eq_false_iff_ne.mpr h
    simp [storedOf, newIdOf, hbeq]
  · intro h
    simp [storedOf, newIdOf, h]
  · intro h
    have hbeq : (s.createdAt == 0) = false := beq_eq_false_iff_ne.mpr h
    simp [storedOf, hbeq]
  · intro h
    simp [storedOf, h]
  · intro h
    have hbeq : (s.updatedAt == 0) = false := beq_eq_false_iff_ne.mpr h
    simp [storedOf, hbeq]
  · intro h
    simp [storedOf, h]

/-- Claim C9 witness: the client-supplied id 42 is the stored id. -/
theorem systemFieldsClientSettable_witness :
    (storedOf exDb0 { exInput with id := 42 }).id = 42 :=
  (systemFieldsClientSettable exDb0 { exInput with id := 42 } (by decide)
      (by decide) (by decide)).2.1 (by decide)

end StudentMS
